import Mathlib

/-!
Verification development for the google-media-backup repository
(Windows client, `src/windows/src`).

The Python source is shallowly embedded: the pure data model
(`utils/config.py`) becomes Lean structures, the stateful orchestration
code (`core/download_manager.py`, `core/drive_client.py`,
`core/transcription.py`) becomes pure functions that take the mutable
state (config-manager stores, filesystem contents, transport outcomes)
as explicit arguments and return the updated state.  Python `dict`s are
embedded as association lists with Python's insertion-order-preserving
update semantics; Python strings as `String`; statuses keep their exact
source spellings ("pending", "complete", ...).
-/

namespace GMB

/-- Embeds the `FileState` dataclass of `utils/config.py` (lines 39-67):
one record per remote item, with the dataclass defaults. -/
structure FileState where
  id : String
  name : String
  source : String
  mime_type : String := ""
  size : Nat := 0
  status : String := "pending"
  downloaded_at : Option String := none
  local_path : Option String := none
  error_message : Option String := none
  modified_time : Option String := none
  transcription_status : String := "pending"
  transcribed_at : Option String := none
deriving DecidableEq, Repr

/-- Embeds Python `s.startswith(p)` by character-list comparison
(Lean's byte-position-based `String.startsWith` does not reduce in the
kernel). -/
def strStartsWith (s p : String) : Bool := p.data.isPrefixOf s.data

/-- Embeds Python `s.strip()`: drop whitespace from both ends
(character-list version of `String.trim`, which the kernel cannot
reduce). -/
def strTrim (s : String) : String :=
  String.mk
    (((s.data.dropWhile (fun c => c.isWhitespace)).reverse.dropWhile
        (fun c => c.isWhitespace)).reverse)

/-- Embeds the `FileState.is_video` property (config.py lines 55-60):
membership in the literal list or a "video/" leading match on the MIME
type. -/
def FileState.is_video (f : FileState) : Bool :=
  let video_types := ["video/mp4", "video/quicktime", "video/x-msvideo",
                      "video/webm", "video/3gpp", "video/mpeg", "video/x-matroska"]
  video_types.contains f.mime_type || strStartsWith f.mime_type "video/"

/-- Embeds the `TranscriptionState` dataclass of `utils/config.py`
(lines 70-84), keyed by local video path. -/
structure TranscriptionState where
  video_path : String
  status : String := "pending"
  transcript_path : Option String := none
  transcribed_at : Option String := none
  error_message : Option String := none
deriving DecidableEq, Repr

/-- Embeds the `DownloadStats` dataclass of `utils/config.py` (lines 96-103). -/
structure DownloadStats where
  total : Nat := 0
  downloaded : Nat := 0
  pending : Nat := 0
  errors : Nat := 0
  videos_for_transcription : Nat := 0
deriving DecidableEq, Repr

/-- Association-list embedding of a Python `dict` with `String` keys.
`dictGet d k` embeds `d.get(k)` / `d[k]`. -/
def dictGet {α : Type} (d : List (String × α)) (k : String) : Option α :=
  (d.find? (fun p => p.1 = k)).map (fun p => p.2)

/-- Embeds `d[k] = v` on a Python dict: replace in place if the key is
present (Python dicts preserve insertion order), else append. -/
def dictSet {α : Type} (d : List (String × α)) (k : String) (v : α) :
    List (String × α) :=
  if d.any (fun p => p.1 = k) then
    d.map (fun p => if p.1 = k then (k, v) else p)
  else
    d ++ [(k, v)]

/-- Embeds `k in d` on a Python dict. -/
def dictMem {α : Type} (d : List (String × α)) (k : String) : Bool :=
  d.any (fun p => p.1 = k)

/-- Values of a dict in insertion order, embedding `d.values()`. -/
def dictValues {α : Type} (d : List (String × α)) : List α :=
  d.map (fun p => p.2)

/-- Embeds one iteration of the loop body of
`ConfigManager.get_download_stats` (config.py lines 295-312): update the
running `DownloadStats` with one `FileState`, consulting the
transcription-state dict. -/
def statsStep (trans : List (String × TranscriptionState))
    (stats : DownloadStats) (state : FileState) : DownloadStats :=
  let stats := { stats with total := stats.total + 1 }
  if state.status = "complete" then
    let stats := { stats with downloaded := stats.downloaded + 1 }
    if state.is_video then
      if state.transcription_status = "pending" || state.transcription_status = "n/a" then
        match state.local_path with
        | some p =>
            match dictGet trans p with
            | none => { stats with videos_for_transcription := stats.videos_for_transcription + 1 }
            | some t =>
                if t.status = "pending" then
                  { stats with videos_for_transcription := stats.videos_for_transcription + 1 }
                else stats
        | none => { stats with videos_for_transcription := stats.videos_for_transcription + 1 }
      else stats
    else stats
  else if state.status = "pending" then
    { stats with pending := stats.pending + 1 }
  else if state.status = "error" then
    { stats with errors := stats.errors + 1 }
  else stats

/-- Embeds `ConfigManager.get_download_stats` (config.py lines 291-314):
a fold of `statsStep` over the Drive values followed by the Photos
values, starting from the all-zero `DownloadStats()`. -/
def get_download_stats (drive photos : List (String × FileState))
    (trans : List (String × TranscriptionState)) : DownloadStats :=
  (dictValues drive ++ dictValues photos).foldl (statsStep trans) {}

/-- Predicate equivalent of the code's counting condition for
`videos_for_transcription` in `statsStep`: completed video whose own
`transcription_status` is "pending" or "n/a" and whose local path (when
set) has no transcription record with a status other than "pending". -/
def needsTranscription (trans : List (String × TranscriptionState))
    (s : FileState) : Bool :=
  s.status = "complete" && s.is_video &&
  (s.transcription_status = "pending" || s.transcription_status = "n/a") &&
  (match s.local_path with
   | some p =>
       match dictGet trans p with
       | none => true
       | some t => t.status = "pending"
   | none => true)

/-- Second definition, stated from the SPEC's words for claim C2 ("a
record counts toward awaiting transcription only if it is a completed
video AND no TranscriptionRecord exists for its local path with status
other than Pending"), to be compared with the code's condition. -/
def specAwaitingTranscription (trans : List (String × TranscriptionState))
    (s : FileState) : Bool :=
  s.status = "complete" && s.is_video &&
  (match s.local_path with
   | some p =>
       match dictGet trans p with
       | none => true
       | some t => t.status = "pending"
   | none => true)

/-- Embeds the `AppConfig` dataclass of `utils/config.py` (lines 19-36)
with its field defaults.  `download_path` is populated by
`__post_init__` when empty; see `appConfigPostInit`. -/
structure AppConfig where
  download_path : String := ""
  auto_download : Bool := false
  auto_transcribe : Bool := true
  transcription_model : String := "small"
  transcription_output_format : String := "txt"
  transcription_language : String := "en"
  download_videos : Bool := true
  download_documents : Bool := true
  download_photos : Bool := true
  max_concurrent_downloads : Nat := 3
  exclude_patterns : List String := ["*.tmp", "*.part"]
deriving DecidableEq, Repr

/-- Embeds `Paths.get_default_download_dir` (paths.py lines 53-58):
`<home>/Desktop/Google Media Backup`, with the user's home directory
abstracted to a fixed string. -/
def defaultDownloadDir : String := "C:/Users/user/Desktop/Google Media Backup"

/-- Embeds `AppConfig.__post_init__` (config.py lines 34-36): an empty
`download_path` is replaced by the default download directory. -/
def appConfigPostInit (c : AppConfig) : AppConfig :=
  if c.download_path = "" then { c with download_path := defaultDownloadDir } else c

/-- Combined in-memory state of the `ConfigManager` stores that
`scan_sources` and `get_download_stats` read and write:
`_drive_state`, `_photos_state`, `_transcription_state`
(config.py lines 111-113).  Persisting a store (`save_drive_state`,
`save_photos_state`) is modelled by the updated store appearing in the
returned state. -/
structure StoreState where
  drive_state : List (String × FileState) := []
  photos_state : List (String × FileState) := []
  transcription_state : List (String × TranscriptionState) := []
deriving DecidableEq, Repr

/-- Embeds the construction of a `FileState` for one Drive item in
`DriveClient.list_all_videos_and_documents` (drive_client.py lines
144-151): only id, name, source, mime_type, size and status are given;
every other field (including the transcription fields) takes the
dataclass default. -/
def driveItemToFileState (id name mimeType : String) (size : Nat) : FileState :=
  { id := id, name := name, source := "drive", mime_type := mimeType,
    size := size, status := "pending" }

/-- Embeds the construction of a `FileState` for one Photos item in
`PhotosClient.list_all_videos` (photos_client.py lines 100-107). -/
def photosItemToFileState (id name mimeType : String) : FileState :=
  { id := id, name := name, source := "photos", mime_type := mimeType,
    size := 0, status := "pending" }

/-- Embeds one iteration of the merge loops of
`DownloadManager.scan_sources` (download_manager.py lines 136-155):
a freshly scanned `file` is stored as-is when its id is new; otherwise
the existing record's `status`, `downloaded_at` and `local_path` are
copied onto the fresh record before it replaces the existing one.  The
source copies no other field: in particular `transcription_status` and
`transcribed_at` keep the values of the freshly scanned record. -/
def mergeScannedFile (state : List (String × FileState)) (file : FileState) :
    List (String × FileState) :=
  if dictMem state file.id then
    match dictGet state file.id with
    | some existing =>
        dictSet state file.id
          { file with status := existing.status,
                      downloaded_at := existing.downloaded_at,
                      local_path := existing.local_path }
    | none => dictSet state file.id file
  else
    dictSet state file.id file

/-- Embeds `DownloadManager.scan_sources` (download_manager.py lines
74-162) as a pure function.  `authenticated` is
`get_auth_manager().is_authenticated`; `driveListing` / `photosListing`
are the outcomes of the two adapter listing calls (`Except.error e`
embeds the listing raising `e`).  The Drive task is submitted only when
`download_videos or download_documents`; the Photos task only when
`download_photos and download_videos`.  A listing failure is caught:
the per-source file list stays empty and the error message is appended
to the local `errors` list, which the source only logs — it is neither
returned nor raised, so it does not appear in the result.  The merged
stores are saved and the function returns `get_download_stats()`. -/
def scanSources (authenticated : Bool) (config : AppConfig)
    (driveListing photosListing : Except String (List FileState))
    (st : StoreState) : Except String (StoreState × DownloadStats) :=
  if !authenticated then .error "Not authenticated with Google"
  else
    let drive_files : List FileState :=
      if config.download_videos || config.download_documents then
        match driveListing with
        | .ok files => files
        | .error _ => []
      else []
    let photos_files : List FileState :=
      if config.download_photos && config.download_videos then
        match photosListing with
        | .ok files => files
        | .error _ => []
      else []
    let drive' := drive_files.foldl mergeScannedFile st.drive_state
    let photos' := photos_files.foldl mergeScannedFile st.photos_state
    let st' := { st with drive_state := drive', photos_state := photos' }
    .ok (st', get_download_stats st'.drive_state st'.photos_state st'.transcription_state)

/-- Flags of the `DownloadManager` that `start_download` reads and
writes (download_manager.py lines 30-35). -/
structure ManagerFlags where
  is_downloading : Bool := false
  is_paused : Bool := false
  should_stop : Bool := false
deriving DecidableEq, Repr

/-- Embeds `DownloadManager.start_download` (download_manager.py lines
177-191) as a pure function.  `authenticated` is the authentication
state at call time; the source body never consults it.  The returned
`Bool` records whether the background worker thread was spawned.  The
source contains no `raise`, so the embedding always returns `.ok`:
when already downloading it warns and returns unchanged, otherwise it
sets the flags and spawns the worker. -/
def start_download (_authenticated : Bool) (flags : ManagerFlags) :
    Except String (ManagerFlags × Bool) :=
  if flags.is_downloading then .ok (flags, false)
  else .ok ({ is_downloading := true, is_paused := false, should_stop := false }, true)

/-- Embeds the `GOOGLE_DOCS_EXPORT` table of `drive_client.py` (lines
47-60): Google Workspace MIME type to (export MIME type, extension). -/
def googleDocsExport : List (String × String × String) :=
  [("application/vnd.google-apps.document",
    ("application/pdf", ".pdf")),
   ("application/vnd.google-apps.spreadsheet",
    ("application/vnd.openxmlformats-officedocument.spreadsheetml.sheet", ".xlsx")),
   ("application/vnd.google-apps.presentation",
    ("application/vnd.openxmlformats-officedocument.presentationml.presentation", ".pptx"))]

/-- Embeds `mime_type in GOOGLE_DOCS_EXPORT`. -/
def isGoogleDocMime (m : String) : Bool :=
  (dictGet googleDocsExport m).isSome

/-- Path concatenation of `pathlib`'s `/` operator, embedded over plain
strings with a single separator. -/
def pathJoin (a b : String) : String := a ++ "/" ++ b

/-- Embeds the destination-directory selection of
`DownloadManager._download_single_file` (download_manager.py lines
326-336), with the `Paths.get_*_dir` helpers of paths.py inlined as
subdirectories of the configured download path (their `mkdir` side
effects are irrelevant here). -/
def destDirFor (file : FileState) (source_type : String) (download_path : String) :
    String :=
  if strStartsWith file.mime_type "video/" || isGoogleDocMime file.mime_type then
    if source_type = "drive" then
      if strStartsWith file.mime_type "video/" then
        pathJoin (pathJoin download_path "Videos") "Drive"
      else
        pathJoin download_path "Documents"
    else
      pathJoin (pathJoin download_path "Videos") "Photos"
  else
    pathJoin download_path "Documents"

/-- Embeds `destination = dest_dir / file_state.name`
(download_manager.py line 339). -/
def destinationFor (file : FileState) (source_type : String) (download_path : String) :
    String :=
  pathJoin (destDirFor file source_type download_path) file.name

/-- Result of one `_download_single_file` call.  `transferCalled`
records whether the owning adapter's transfer operation
(`drive_client.download_file` / `photos_client.download_video`) was
invoked on this code path. -/
structure SingleDownloadResult where
  success : Bool
  skipped : Bool
  file : FileState
  transferCalled : Bool
deriving DecidableEq, Repr

/-- Embeds `DownloadManager._download_single_file` (download_manager.py
lines 313-386).  `fsExists p` embeds `Path(p).exists()`;
`transferResult` abstracts the owning adapter's transfer call:
`.ok b` embeds the call returning `b`, `.error e` embeds it raising
exception message `e` (caught by the handler at lines 380-386).  If the
destination already exists the function returns success/skipped without
touching the adapter (lines 342-345). -/
def download_single_file (fsExists : String → Bool)
    (transferResult : Except String Bool)
    (file : FileState) (source_type : String) (download_path : String) :
    SingleDownloadResult :=
  let destination := destinationFor file source_type download_path
  if fsExists destination then
    { success := true, skipped := true,
      file := { file with local_path := some destination },
      transferCalled := false }
  else
    match transferResult with
    | .ok success =>
        if success then
          { success := true, skipped := false,
            file := { file with local_path := some destination },
            transferCalled := true }
        else
          { success := false, skipped := false,
            file := { file with error_message := some "Download failed" },
            transferCalled := true }
    | .error e =>
        { success := false, skipped := false,
          file := { file with error_message := some e },
          transferCalled := true }

/-- Counters accumulated by `_download_worker`
(download_manager.py lines 263-265). -/
structure WorkerCounts where
  downloaded : Nat := 0
  skipped : Nat := 0
  errors : Nat := 0
deriving DecidableEq, Repr

/-- Embeds one iteration of the worklist loop of
`DownloadManager._download_worker` (download_manager.py lines 280-302):
call `_download_single_file`, then on success bump the skipped or
downloaded counter and mark the record "complete" with the current
timestamp `now`; on failure bump the error counter and mark it
"error".  The updated record is what `update_drive_file` /
`update_photos_file` persists. -/
def workerProcessItem (fsExists : String → Bool)
    (transferResult : Except String Bool)
    (file : FileState) (source_type : String) (download_path : String)
    (now : String) (counts : WorkerCounts) : WorkerCounts × FileState :=
  let r := download_single_file fsExists transferResult file source_type download_path
  if r.success then
    let counts :=
      if r.skipped then { counts with skipped := counts.skipped + 1 }
      else { counts with downloaded := counts.downloaded + 1 }
    (counts, { r.file with status := "complete", downloaded_at := some now })
  else
    ({ counts with errors := counts.errors + 1 },
     { r.file with status := "error" })

/-- Filesystem paths for the Drive-client embedding, as character
lists (suffix reasoning is done with `List.IsSuffix`). -/
abbrev RPath := List Char

/-- Lowercasing of a path, embedding Python `str.lower()` on the ASCII
paths involved. -/
def toLowerPath (p : RPath) : RPath := p.map Char.toLower

/-- Final component of a path: the characters after the last
separator. -/
def nameOf (p : RPath) : RPath :=
  (p.reverse.takeWhile (fun c => c ≠ '/')).reverse

/-- Everything up to and including the last separator. -/
def dirOf (p : RPath) : RPath :=
  (p.reverse.dropWhile (fun c => c ≠ '/')).reverse

/-- Embeds `pathlib.PurePath.suffix` on the final component: the part
of `name` from its last dot `i`, provided `0 < i < len(name) - 1`;
otherwise empty. -/
def pathlibSuffix (name : RPath) : RPath :=
  match name.reverse.findIdx? (fun c => c = '.') with
  | none => []
  | some j =>
      let i := name.length - 1 - j
      if 0 < i ∧ i < name.length - 1 then name.drop i else []

/-- Embeds `pathlib.PurePath.with_suffix(ext)`: strip the current
suffix of the final component (if any) and append `ext`. -/
def withSuffix (p ext : RPath) : RPath :=
  let name := nameOf p
  let suf := pathlibSuffix name
  let newName :=
    if suf.isEmpty then name ++ ext
    else name.take (name.length - suf.length) ++ ext
  dirOf p ++ newName

/-- Embeds the destination rewrite of `DriveClient._export_file`
(drive_client.py lines 268-270): when
`str(destination).lower().endswith(extension.lower())` fails, the
destination becomes `destination.with_suffix(extension)`. -/
def exportDestination (dest ext : RPath) : RPath :=
  if (toLowerPath ext).isSuffixOf (toLowerPath dest) then dest
  else withSuffix dest ext

/-- Outcome of the chunked transfer inside
`DriveClient.download_file` / `_export_file`: either the download loop
finishes having written `totalBytes`, or an exception is raised with
`written` bytes already on disk (`none` when the exception occurs
before the destination file is opened, e.g. during `mkdir`). -/
inductive Transport where
  | success (totalBytes : Nat)
  | failAfter (written : Option Nat)
deriving DecidableEq, Repr

/-- Abstract filesystem for the Drive-client embedding: maps a path to
the size of the file stored there, `none` when absent. -/
def RFs : Type := RPath → Option Nat

/-- Writing a file of `n` bytes at `p`. -/
def fsSet (fs : RFs) (p : RPath) (n : Nat) : RFs :=
  fun q => if q = p then some n else fs q

/-- Embeds `Path.unlink()` at `p`. -/
def fsDel (fs : RFs) (p : RPath) : RFs :=
  fun q => if q = p then none else fs q

/-- Shared body of `DriveClient.download_file` (drive_client.py lines
196-239) and, after the destination rewrite, `DriveClient._export_file`
(lines 272-318); the two bodies are line-for-line identical in the
source.  Opening the destination and streaming the chunks writes the
delivered bytes; then the empty-result validation deletes a zero-byte
file and returns `False`; the exception handlers delete the destination
if it exists and return `False`. -/
def downloadBody (fs : RFs) (dest : RPath) (t : Transport) : Bool × RFs :=
  match t with
  | .success n =>
      let fs1 := fsSet fs dest n
      match fs1 dest with
      | some sz => if sz = 0 then (false, fsDel fs1 dest) else (true, fs1)
      | none => (true, fs1)
  | .failAfter w =>
      let fs1 := match w with
        | some k => fsSet fs dest k
        | none => fs
      (false, if (fs1 dest).isSome then fsDel fs1 dest else fs1)

/-- Embeds `DriveClient.download_file` (drive_client.py lines 170-239):
a MIME type in `GOOGLE_DOCS_EXPORT` is delegated to `_export_file`,
which rewrites the destination's extension before writing; otherwise
the regular chunked download runs at the caller's destination.  The
second component of the result is the effective destination — the path
the bytes are written to. -/
def download_file (fs : RFs) (dest : RPath) (mime_type : String) (t : Transport) :
    (Bool × RFs) × RPath :=
  match dictGet googleDocsExport mime_type with
  | some (_, ext) =>
      let ed := exportDestination dest ext.data
      (downloadBody fs ed t, ed)
  | none => (downloadBody fs dest t, dest)

/-- A transport outcome on which the source's download body fails:
either an exception, or a completed download that delivered zero
bytes. -/
def transportFails : Transport → Bool
  | .success n => n = 0
  | .failAfter _ => true

/-- A timed segment produced by speech-to-text inference: start time,
end time (field named `stop` because `end` is reserved in Lean) and
text. Times are embedded as rationals; Python's float arithmetic in the
timestamp formatter is exact on the dyadic inputs considered here. -/
structure Segment where
  start : ℚ
  stop : ℚ
  text : String
deriving DecidableEq, Repr

/-- Python's float modulo `a % b` for the nonnegative operands used by
the timestamp formatters: `a - b * floor(a / b)`. -/
def pyMod (a b : ℚ) : ℚ := a - b * (⌊a / b⌋ : ℚ)

/-- Zero-padding to two digits, embedding the format spec `{:02d}` for
nonnegative values. -/
def pad2 (n : Nat) : String :=
  if n < 10 then "0" ++ toString n else toString n

/-- Zero-padding to three digits, embedding the format spec `{:03d}`
for nonnegative values. -/
def pad3 (n : Nat) : String :=
  if n < 10 then "00" ++ toString n
  else if n < 100 then "0" ++ toString n
  else toString n

/-- Embeds `TranscriptionManager._format_timestamp_srt`
(transcription.py lines 305-311): `HH:MM:SS,mmm` with
`hours = int(seconds // 3600)`, `minutes = int((seconds % 3600) // 60)`,
`secs = int(seconds % 60)`, `millis = int((seconds % 1) * 1000)`;
`int` truncation coincides with `floor` on the nonnegative segment
times. -/
def format_timestamp_srt (seconds : ℚ) : String :=
  pad2 ⌊seconds / 3600⌋.toNat ++ ":" ++
  pad2 ⌊pyMod seconds 3600 / 60⌋.toNat ++ ":" ++
  pad2 ⌊pyMod seconds 60⌋.toNat ++ "," ++
  pad3 ⌊pyMod seconds 1 * 1000⌋.toNat

/-- One block written by the loop body of
`TranscriptionManager._write_srt` (transcription.py lines 288-293):
the 1-based index line, the timestamp line, the trimmed text, and the
blank separator line. -/
def srtBlock (i : Nat) (seg : Segment) : String :=
  toString i ++ "\n" ++
  format_timestamp_srt seg.start ++ " --> " ++ format_timestamp_srt seg.stop ++ "\n" ++
  strTrim seg.text ++ "\n\n"

/-- Embeds `TranscriptionManager._write_srt` (transcription.py lines
285-293): the full text written to the output file, enumerating the
segments from 1. -/
def write_srt (segments : List Segment) : String :=
  String.join ((segments.enumFrom 1).map (fun p => srtBlock p.1 p.2))

/-- JSON values occurring in the configuration document written by
`ConfigManager.save_config`. -/
inductive JVal where
  | s (v : String)
  | b (v : Bool)
  | n (v : Nat)
  | arr (v : List String)
deriving DecidableEq, Repr

/-- Embeds `json.dump(asdict(self._config), f)` in
`ConfigManager.save_config` (config.py lines 123-137): the document
holds every `AppConfig` field under its field name, in declaration
order. -/
def saveConfigDoc (c : AppConfig) : List (String × JVal) :=
  [("download_path", .s c.download_path),
   ("auto_download", .b c.auto_download),
   ("auto_transcribe", .b c.auto_transcribe),
   ("transcription_model", .s c.transcription_model),
   ("transcription_output_format", .s c.transcription_output_format),
   ("transcription_language", .s c.transcription_language),
   ("download_videos", .b c.download_videos),
   ("download_documents", .b c.download_documents),
   ("download_photos", .b c.download_photos),
   ("max_concurrent_downloads", .n c.max_concurrent_downloads),
   ("exclude_patterns", .arr c.exclude_patterns)]

/-- Embeds `hasattr(AppConfig, k)` for the field-name keys a
configuration document can contain (config.py line 151).  CPython's
`dataclasses._process_class` deletes the class attribute of a field
declared with `field(default_factory=...)` and no plain default, so
`hasattr(AppConfig, "exclude_patterns")` is `False` while the other ten
fields, having plain defaults, remain class attributes. -/
def hasattrAppConfig (k : String) : Bool :=
  ["download_path", "auto_download", "auto_transcribe",
   "transcription_model", "transcription_output_format",
   "transcription_language", "download_videos", "download_documents",
   "download_photos", "max_concurrent_downloads"].contains k

/-- Keyword-argument application of the filtered document to the
`AppConfig` constructor: each field takes the document's value when the
(filtered) document has its key with a value of the field's type, and
the dataclass default otherwise. -/
def buildAppConfig (doc : List (String × JVal)) : AppConfig :=
  let getS := fun (k : String) (d : String) =>
    match dictGet doc k with | some (.s v) => v | _ => d
  let getB := fun (k : String) (d : Bool) =>
    match dictGet doc k with | some (.b v) => v | _ => d
  let getN := fun (k : String) (d : Nat) =>
    match dictGet doc k with | some (.n v) => v | _ => d
  let getArr := fun (k : String) (d : List String) =>
    match dictGet doc k with | some (.arr v) => v | _ => d
  { download_path := getS "download_path" "",
    auto_download := getB "auto_download" false,
    auto_transcribe := getB "auto_transcribe" true,
    transcription_model := getS "transcription_model" "small",
    transcription_output_format := getS "transcription_output_format" "txt",
    transcription_language := getS "transcription_language" "en",
    download_videos := getB "download_videos" true,
    download_documents := getB "download_documents" true,
    download_photos := getB "download_photos" true,
    max_concurrent_downloads := getN "max_concurrent_downloads" 3,
    exclude_patterns := getArr "exclude_patterns" ["*.tmp", "*.part"] }

/-- Embeds `ConfigManager._load_config` (config.py lines 139-154):
an absent file yields the defaults (post-init applied); otherwise the
document's entries are filtered by `hasattr(AppConfig, k)` and applied
as keyword arguments, then `__post_init__` runs. -/
def loadConfig (doc : Option (List (String × JVal))) : AppConfig :=
  match doc with
  | none => appConfigPostInit {}
  | some data =>
      appConfigPostInit (buildAppConfig (data.filter (fun p => hasattrAppConfig p.1)))

theorem find?_map_replace {α : Type} (d : List (String × α)) (k : String) (v : α)
    (h : d.any (fun p => p.1 = k) = true) :
    ((d.map (fun p => if p.1 = k then (k, v) else p)).find?
      (fun p => p.1 = k)) = some (k, v) := by
  induction d with
  | nil => simp at h
  | cons hd tl ih =>
      by_cases hk : hd.1 = k
      · simp [List.find?, hk]
      · simp only [List.any_cons, Bool.or_eq_true, decide_eq_true_eq] at h
        rcases h with h | h
        · exact absurd h hk
        · simpa [List.find?, hk] using ih h

theorem find?_append_new {α : Type} (d : List (String × α)) (k : String) (v : α)
    (h : d.any (fun p => p.1 = k) = false) :
    ((d ++ [(k, v)]).find? (fun p => p.1 = k)) = some (k, v) := by
  induction d with
  | nil => simp [List.find?]
  | cons hd tl ih =>
      simp only [List.any_cons, Bool.or_eq_false_iff, decide_eq_false_iff_not] at h
      simpa [List.find?, h.1] using ih h.2

theorem dictGet_dictSet_self {α : Type} (d : List (String × α)) (k : String) (v : α) :
    dictGet (dictSet d k v) k = some v := by
  unfold dictGet dictSet
  by_cases h : d.any (fun p => p.1 = k) = true
  · simp [h, find?_map_replace d k v h]
  · simp only [Bool.not_eq_true] at h
    simp [h, find?_append_new d k v h]

/-- The merge of an incoming record whose id already exists stores
`file` with only `status`, `downloaded_at` and `local_path` taken from
the existing record. -/
theorem mergeScannedFile_existing (state : List (String × FileState))
    (file existing : FileState)
    (h : dictGet state file.id = some existing) :
    dictGet (mergeScannedFile state file) file.id =
      some { file with status := existing.status,
                       downloaded_at := existing.downloaded_at,
                       local_path := existing.local_path } := by
  have hmem : dictMem state file.id = true := by
    unfold dictGet at h
    unfold dictMem
    rcases hf : state.find? (fun p => p.1 = file.id) with _ | p
    · simp [hf] at h
    · have := List.find?_some hf
      exact List.any_eq_true.mpr ⟨p, List.mem_of_find?_eq_some hf, this⟩
  unfold mergeScannedFile
  rw [hmem, if_pos rfl, h]
  exact dictGet_dictSet_self state file.id _

/-- An existing Drive record whose transfer and transcription are both
complete, for exercising the rescan merge. -/
def c1Existing : FileState :=
  { id := "f1", name := "old.mp4", source := "drive", mime_type := "video/mp4",
    size := 5, status := "complete", downloaded_at := some "2024-01-01T00:00:00",
    local_path := some "C:/dl/old.mp4", transcription_status := "complete",
    transcribed_at := some "2024-01-02T00:00:00" }

/-- The same item as freshly produced by a rescan of Drive. -/
def c1Incoming : FileState := driveItemToFileState "f1" "new.mp4" "video/mp4" 7

/-- Store holding only the existing record, before the rescan. -/
def c1Store : StoreState := { drive_state := [("f1", c1Existing)] }

/-- C1 counterexample: rescanning an id whose existing record has
`transcription_status = "complete"` and a `transcribed_at` timestamp
stores a merged record whose transcription fields are reset to the
freshly-scanned defaults ("pending", none) — the merge loop of
`scan_sources` copies only `status`, `downloaded_at` and `local_path`,
so the claim that the derived transcription fields are preserved is
false. -/
theorem rescan_resets_transcription_counterexample :
    ((scanSources true {} (.ok [c1Incoming]) (.ok []) c1Store).toOption.bind
        (fun r => dictGet r.1.drive_state "f1")).map
        (fun f => (f.transcription_status, f.transcribed_at)) =
      some ("pending", none)
    ∧ c1Existing.transcription_status = "complete"
    ∧ c1Existing.transcribed_at = some "2024-01-02T00:00:00" := by
  exact ⟨rfl, rfl, rfl⟩

/-- C1 (amended): for an incoming record produced by a Drive scan whose
id already exists, the merged record preserves the existing record's
`status`, `downloaded_at` and `local_path` while `name`, `mime_type`
and `size` are refreshed from the new scan; the transcription fields
are NOT preserved — they take the freshly-scanned defaults
("pending" / none), so a rescan never regresses transfer progress but
does reset the record's derived transcription progress. -/
theorem rescan_merge_preserves_transfer_progress_only
    (state : List (String × FileState)) (id name mime : String) (size : Nat)
    (existing : FileState)
    (h : dictGet state id = some existing) :
    ∃ m, dictGet (mergeScannedFile state (driveItemToFileState id name mime size)) id =
        some m
      ∧ m.status = existing.status
      ∧ m.downloaded_at = existing.downloaded_at
      ∧ m.local_path = existing.local_path
      ∧ m.name = name ∧ m.mime_type = mime ∧ m.size = size
      ∧ m.transcription_status = "pending"
      ∧ m.transcribed_at = none := by
  have hid : (driveItemToFileState id name mime size).id = id := rfl
  refine ⟨{ driveItemToFileState id name mime size with
            status := existing.status,
            downloaded_at := existing.downloaded_at,
            local_path := existing.local_path }, ?_, rfl, rfl, rfl, rfl, rfl, rfl, rfl, rfl⟩
  have := mergeScannedFile_existing state (driveItemToFileState id name mime size)
    existing (by rw [hid]; exact h)
  rw [hid] at this
  exact this

/-- Witness for `rescan_merge_preserves_transfer_progress_only` at the
concrete C1 store. -/
theorem rescan_merge_preserves_transfer_progress_only_witness :
    dictGet [("f1", c1Existing)] "f1" = some c1Existing ∧
    ∃ m, dictGet (mergeScannedFile [("f1", c1Existing)]
        (driveItemToFileState "f1" "new.mp4" "video/mp4" 7)) "f1" = some m
      ∧ m.status = c1Existing.status
      ∧ m.downloaded_at = c1Existing.downloaded_at
      ∧ m.local_path = c1Existing.local_path
      ∧ m.name = "new.mp4" ∧ m.mime_type = "video/mp4" ∧ m.size = 7
      ∧ m.transcription_status = "pending"
      ∧ m.transcribed_at = none :=
  ⟨rfl, rescan_merge_preserves_transfer_progress_only [("f1", c1Existing)]
    "f1" "new.mp4" "video/mp4" 7 c1Existing rfl⟩

theorem statsStep_videos (trans : List (String × TranscriptionState))
    (s : DownloadStats) (x : FileState) :
    (statsStep trans s x).videos_for_transcription =
      s.videos_for_transcription +
        (if needsTranscription trans x = true then 1 else 0) := by
  unfold statsStep needsTranscription
  by_cases h1 : x.status = "complete" <;> simp only [h1, if_true, if_false]
  · by_cases h2 : x.is_video <;>
      simp only [h2, Bool.true_and, Bool.false_and, if_true, if_false,
        Bool.and_eq_true, decide_eq_true_eq, Bool.or_eq_true]
    · by_cases h3 : (x.transcription_status = "pending" ∨ x.transcription_status = "n/a")
      · rcases hlp : x.local_path with _ | p
        · simp [h3, hlp, decide_eq_true_eq]
        · rcases hg : dictGet trans p with _ | t
          · simp [h3, hlp, hg, decide_eq_true_eq]
          · by_cases h4 : t.status = "pending" <;>
              simp [h3, hlp, hg, h4, decide_eq_true_eq]
      · have h3' : (decide (x.transcription_status = "pending") ||
            decide (x.transcription_status = "n/a")) = false := by
          simpa [Bool.or_eq_true, decide_eq_true_eq] using h3
        simp [h3', h3]
    · simp
  · by_cases h5 : x.status = "pending" <;>
      by_cases h6 : x.status = "error" <;>
        simp [h1, h5, h6]

theorem foldl_statsStep_videos (trans : List (String × TranscriptionState))
    (l : List FileState) (s : DownloadStats) :
    (l.foldl (statsStep trans) s).videos_for_transcription =
      s.videos_for_transcription + l.countP (needsTranscription trans) := by
  induction l generalizing s with
  | nil => simp
  | cons a l ih =>
      rw [List.foldl_cons, ih, statsStep_videos, List.countP_cons]
      by_cases h : needsTranscription trans a = true <;> simp [h] <;> omega

/-- Completed Drive video whose transcription record is complete. -/
def c2V1 : FileState :=
  { id := "a", name := "v1.mp4", source := "drive", mime_type := "video/mp4",
    status := "complete", local_path := some "L1" }

/-- Completed Drive video with no transcription record. -/
def c2V2 : FileState :=
  { id := "b", name := "v2.mp4", source := "drive", mime_type := "video/mp4",
    status := "complete", local_path := some "L2" }

/-- Completed Drive document. -/
def c2Doc : FileState :=
  { id := "c", name := "d.pdf", source := "drive", mime_type := "application/pdf",
    status := "complete", local_path := some "L3" }

/-- Pending Photos video. -/
def c2Pend : FileState :=
  { id := "d", name := "p.mp4", source := "photos", mime_type := "video/mp4",
    status := "pending" }

/-- Errored Photos video. -/
def c2Err : FileState :=
  { id := "e", name := "e.mp4", source := "photos", mime_type := "video/mp4",
    status := "error" }

/-- Transcription record for `c2V1`, already complete. -/
def c2Trans : TranscriptionState := { video_path := "L1", status := "complete" }

/-- Completed video whose own `transcription_status` is "error" and for
whose local path no transcription record exists. -/
def c2ErrTrans : FileState :=
  { id := "x", name := "x.mp4", source := "drive", mime_type := "video/mp4",
    status := "complete", local_path := some "LX", transcription_status := "error" }

/-- C2 counterexample: the aggregator does not count a record exactly
when the spec's rule (completed video with no non-pending transcription
record for its local path) holds — a completed video whose own
`transcription_status` is "error" satisfies the spec's rule but is not
counted, because the code additionally requires the record's own
`transcription_status` to be "pending" or "n/a". -/
theorem stats_counting_differs_from_spec_rule :
    (get_download_stats [("x", c2ErrTrans)] [] []).videos_for_transcription ≠
      List.countP (specAwaitingTranscription [])
        (dictValues [("x", c2ErrTrans)] ++
          dictValues ([] : List (String × FileState))) := by
  decide

/-- C2 (amended): the aggregator counts a record toward
`videos_for_transcription` exactly when it is a completed video whose
own `transcription_status` is "pending" or "n/a" and either it has no
local path or no transcription record exists for its local path with
status other than "pending"; and in the concrete instance of 5 records
with 3 complete (2 videos, 1 document) where one completed video has a
complete transcription record, the computed count equals 1. -/
theorem stats_videos_for_transcription_count :
    (∀ (drive photos : List (String × FileState))
       (trans : List (String × TranscriptionState)),
       (get_download_stats drive photos trans).videos_for_transcription =
         List.countP (needsTranscription trans)
           (dictValues drive ++ dictValues photos))
    ∧ (get_download_stats [("a", c2V1), ("b", c2V2), ("c", c2Doc)]
        [("d", c2Pend), ("e", c2Err)]
        [("L1", c2Trans)]).videos_for_transcription = 1 := by
  constructor
  · intro drive photos trans
    unfold get_download_stats
    rw [foldl_statsStep_videos]
    simp
  · decide

/-- C3: if the destination path for a pending item already exists on
disk when the download loop reaches it, the owning adapter's transfer
operation is never invoked for that item; the item's status becomes
"complete", its local path is set to the existing destination, and the
final statistics count it as skipped, not as downloaded. -/
theorem skip_on_exists
    (fsExists : String → Bool) (transferResult : Except String Bool)
    (file : FileState) (source_type download_path now : String)
    (counts : WorkerCounts)
    (h : fsExists (destinationFor file source_type download_path) = true) :
    (download_single_file fsExists transferResult file source_type
        download_path).transferCalled = false
    ∧ (workerProcessItem fsExists transferResult file source_type download_path
        now counts).2.status = "complete"
    ∧ (workerProcessItem fsExists transferResult file source_type download_path
        now counts).2.local_path =
        some (destinationFor file source_type download_path)
    ∧ (workerProcessItem fsExists transferResult file source_type download_path
        now counts).1 = { counts with skipped := counts.skipped + 1 } := by
  simp [workerProcessItem, download_single_file, h]

/-- Witness for `skip_on_exists`: a filesystem on which every path
exists, a concrete pending Drive video, and zeroed counters. -/
theorem skip_on_exists_witness :
    (fun _ => true : String → Bool)
        (destinationFor (driveItemToFileState "f1" "a.mp4" "video/mp4" 9)
          "drive" "C:/dl") = true
    ∧ ((download_single_file (fun _ => true) (.ok true)
          (driveItemToFileState "f1" "a.mp4" "video/mp4" 9) "drive"
          "C:/dl").transferCalled = false
       ∧ (workerProcessItem (fun _ => true) (.ok true)
            (driveItemToFileState "f1" "a.mp4" "video/mp4" 9) "drive" "C:/dl"
            "2024-01-01T00:00:00" {}).2.status = "complete"
       ∧ (workerProcessItem (fun _ => true) (.ok true)
            (driveItemToFileState "f1" "a.mp4" "video/mp4" 9) "drive" "C:/dl"
            "2024-01-01T00:00:00" {}).2.local_path =
          some (destinationFor (driveItemToFileState "f1" "a.mp4" "video/mp4" 9)
            "drive" "C:/dl")
       ∧ (workerProcessItem (fun _ => true) (.ok true)
            (driveItemToFileState "f1" "a.mp4" "video/mp4" 9) "drive" "C:/dl"
            "2024-01-01T00:00:00" {}).1 =
          { (({} : WorkerCounts)) with skipped := ({} : WorkerCounts).skipped + 1 }) :=
  ⟨rfl, skip_on_exists (fun _ => true) (.ok true)
    (driveItemToFileState "f1" "a.mp4" "video/mp4" 9) "drive" "C:/dl"
    "2024-01-01T00:00:00" {} rfl⟩

/-- C4: for the synthetic segment list
`[(0.0, 1.5, "hello"), (1.5, 3.0, "world")]` the SubRip writer produces
exactly the claimed text: 1-based indices, zero-padded `HH:MM:SS` with
a comma before three millisecond digits, trimmed segment text, and a
blank line after every block. -/
theorem srt_output_exact :
    write_srt [{ start := 0, stop := 3 / 2, text := "hello" },
               { start := 3 / 2, stop := 3, text := "world" }] =
      "1\n00:00:00,000 --> 00:00:01,500\nhello\n\n2\n00:00:01,500 --> 00:00:03,000\nworld\n\n" := by
  have m0a : pyMod (0 : ℚ) 3600 = 0 := by unfold pyMod; norm_num
  have m0b : pyMod (0 : ℚ) 60 = 0 := by unfold pyMod; norm_num
  have m0c : pyMod (0 : ℚ) 1 = 0 := by unfold pyMod; norm_num
  have m1a : pyMod (3 / 2 : ℚ) 3600 = 3 / 2 := by unfold pyMod; norm_num
  have m1b : pyMod (3 / 2 : ℚ) 60 = 3 / 2 := by unfold pyMod; norm_num
  have m1c : pyMod (3 / 2 : ℚ) 1 = 1 / 2 := by unfold pyMod; norm_num
  have m3a : pyMod (3 : ℚ) 3600 = 3 := by unfold pyMod; norm_num
  have m3b : pyMod (3 : ℚ) 60 = 3 := by unfold pyMod; norm_num
  have m3c : pyMod (3 : ℚ) 1 = 0 := by unfold pyMod; norm_num
  have f0 : format_timestamp_srt 0 = "00:00:00,000" := by
    unfold format_timestamp_srt
    rw [m0a, m0b, m0c]
    norm_num
    rfl
  have f1 : format_timestamp_srt (3 / 2) = "00:00:01,500" := by
    unfold format_timestamp_srt
    rw [m1a, m1b, m1c]
    have h1 : ⌊(3 / 2 : ℚ) / 3600⌋ = 0 := by norm_num
    have h2 : ⌊(3 / 2 : ℚ) / 60⌋ = 0 := by norm_num
    have h3 : ⌊(3 / 2 : ℚ)⌋ = 1 := by norm_num
    have h4 : ⌊(1 / 2 : ℚ) * 1000⌋ = 500 := by norm_num
    rw [h1, h2, h3, h4]
    rfl
  have f3 : format_timestamp_srt 3 = "00:00:03,000" := by
    unfold format_timestamp_srt
    rw [m3a, m3b, m3c]
    have h1 : ⌊(3 : ℚ) / 3600⌋ = 0 := by norm_num
    have h2 : ⌊(3 : ℚ) / 60⌋ = 0 := by norm_num
    have h3 : ⌊(3 : ℚ)⌋ = 3 := by norm_num
    have h4 : ⌊(0 : ℚ) * 1000⌋ = 0 := by norm_num
    rw [h1, h2, h3, h4]
    rfl
  show String.join [srtBlock 1 { start := 0, stop := 3 / 2, text := "hello" },
    srtBlock 2 { start := 3 / 2, stop := 3, text := "world" }] = _
  unfold srtBlock
  rw [show ({ start := 0, stop := 3 / 2, text := "hello" } : Segment).start = 0 from rfl,
      show ({ start := 0, stop := 3 / 2, text := "hello" } : Segment).stop = 3 / 2 from rfl,
      show ({ start := 3 / 2, stop := 3, text := "world" } : Segment).start = 3 / 2 from rfl,
      show ({ start := 3 / 2, stop := 3, text := "world" } : Segment).stop = 3 from rfl,
      f0, f1, f3]
  rfl

theorem withSuffix_ends_with (p ext : RPath) : ∃ q, withSuffix p ext = q ++ ext := by
  unfold withSuffix
  by_cases h : (pathlibSuffix (nameOf p)).isEmpty
  · exact ⟨dirOf p ++ nameOf p, by simp [h, List.append_assoc]⟩
  · exact ⟨dirOf p ++ (nameOf p).take ((nameOf p).length - (pathlibSuffix (nameOf p)).length),
      by simp [h, List.append_assoc]⟩

/-- C5: for the proprietary-spreadsheet type, the export table maps to
extension ".xlsx", and whenever the caller-supplied destination does
not already end in that extension (the source compares
case-insensitively), the rewritten destination that the adapter writes
to ends in ".xlsx" — both literally and under the source's
case-insensitive comparison. -/
theorem export_extension_rewrite (dest : RPath)
    (h : (toLowerPath ".xlsx".data).isSuffixOf (toLowerPath dest) = false) :
    dictGet googleDocsExport "application/vnd.google-apps.spreadsheet" =
      some ("application/vnd.openxmlformats-officedocument.spreadsheetml.sheet", ".xlsx")
    ∧ ".xlsx".data <:+ exportDestination dest ".xlsx".data
    ∧ toLowerPath ".xlsx".data <:+ toLowerPath (exportDestination dest ".xlsx".data) := by
  have hd : exportDestination dest ".xlsx".data = withSuffix dest ".xlsx".data := by
    unfold exportDestination
    rw [h]
    simp
  obtain ⟨q, hq⟩ := withSuffix_ends_with dest ".xlsx".data
  refine ⟨rfl, ?_, ?_⟩
  · rw [hd, hq]
    exact List.suffix_append q _
  · rw [hd, hq]
    unfold toLowerPath
    rw [List.map_append]
    exact List.suffix_append _ _

/-- Witness for `export_extension_rewrite` at the concrete destination
"report.gsheet". -/
theorem export_extension_rewrite_witness :
    (toLowerPath ".xlsx".data).isSuffixOf (toLowerPath "report.gsheet".data) = false
    ∧ (dictGet googleDocsExport "application/vnd.google-apps.spreadsheet" =
        some ("application/vnd.openxmlformats-officedocument.spreadsheetml.sheet", ".xlsx")
       ∧ ".xlsx".data <:+ exportDestination "report.gsheet".data ".xlsx".data
       ∧ toLowerPath ".xlsx".data <:+
           toLowerPath (exportDestination "report.gsheet".data ".xlsx".data)) :=
  ⟨by decide, export_extension_rewrite "report.gsheet".data (by decide)⟩

theorem downloadBody_spec (fs : RFs) (dest : RPath) (t : Transport) :
    (downloadBody fs dest t).1 = !(transportFails t)
    ∧ (transportFails t = true → (downloadBody fs dest t).2 dest = none) := by
  cases t with
  | success n =>
      cases n with
      | zero => simp [downloadBody, transportFails, fsSet, fsDel]
      | succ k => simp [downloadBody, transportFails, fsSet, fsDel]
  | failAfter w =>
      cases w with
      | none =>
          constructor
          · simp [downloadBody, transportFails]
          · intro _
            by_cases hex : (fs dest).isSome
            · simp [downloadBody, hex, fsDel]
            · simp only [Option.isSome] at hex
              rcases hfd : fs dest with _ | v
              · simp [downloadBody, hfd, fsDel]
              · rw [hfd] at hex
                simp at hex
      | some k =>
          constructor
          · simp [downloadBody, transportFails]
          · intro _
            simp [downloadBody, fsSet, fsDel]

/-- C6: for every invocation of the Drive adapter's download operation
(both the regular branch and the export branch, at the effective
destination where bytes are written): the call returns `false` exactly
when the transport outcome is an exception or a completed download of
zero bytes, and on every such failure path no artifact — truncated or
empty — remains at the destination. -/
theorem download_failure_cleanup (fs : RFs) (dest : RPath) (mime_type : String)
    (t : Transport) :
    (download_file fs dest mime_type t).1.1 = !(transportFails t)
    ∧ (transportFails t = true →
        (download_file fs dest mime_type t).1.2
          (download_file fs dest mime_type t).2 = none) := by
  unfold download_file
  rcases hm : dictGet googleDocsExport mime_type with _ | p
  · exact downloadBody_spec fs dest t
  · exact downloadBody_spec fs (exportDestination dest p.2.data) t

/-- Witness for `download_failure_cleanup`: a transport error after 3
bytes were written at a concrete destination, on an empty filesystem. -/
theorem download_failure_cleanup_witness :
    transportFails (.failAfter (some 3)) = true
    ∧ (download_file (fun _ => none) "C:/dl/a.mp4".data "video/mp4"
          (.failAfter (some 3))).1.1 = false
    ∧ (download_file (fun _ => none) "C:/dl/a.mp4".data "video/mp4"
          (.failAfter (some 3))).1.2
        (download_file (fun _ => none) "C:/dl/a.mp4".data "video/mp4"
          (.failAfter (some 3))).2 = none :=
  ⟨rfl,
   (download_failure_cleanup (fun _ => none) "C:/dl/a.mp4".data "video/mp4"
     (.failAfter (some 3))).1,
   (download_failure_cleanup (fun _ => none) "C:/dl/a.mp4".data "video/mp4"
     (.failAfter (some 3))).2 rfl⟩

/-- C7 counterexample: with no credentials, `start_download` raises
nothing — the source body contains no authentication check at all — and
it starts the background worker: from the idle flag state it returns
`.ok` with `is_downloading` set and the worker spawned, refuting the
claim that `start()` raises synchronously rather than starting
background work. -/
theorem start_without_auth_counterexample :
    start_download false {} =
      .ok ({ is_downloading := true, is_paused := false, should_stop := false }, true) :=
  rfl

/-- C7 (amended): when no credentials are present, `scan()` raises
synchronously ("Not authenticated with Google"); `start()` performs no
authentication check and never raises — it returns `.ok` for every flag
state, spawning the background worker unless a download is already in
progress (authentication failures then surface later, per item, inside
the worker). -/
theorem scan_failfast_start_no_check (config : AppConfig)
    (dl pl : Except String (List FileState)) (st : StoreState)
    (flags : ManagerFlags) :
    scanSources false config dl pl st = .error "Not authenticated with Google"
    ∧ ∃ r, start_download false flags = .ok r := by
  constructor
  · rfl
  · by_cases h : flags.is_downloading = true
    · exact ⟨(flags, false), by simp [start_download, h]⟩
    · exact ⟨({ is_downloading := true, is_paused := false, should_stop := false }, true),
        by simp [start_download, h]⟩

/-- A Photos video as produced by a scan, used in the C8 scenario. -/
def c8Photos : FileState := photosItemToFileState "p1" "vid.mp4" "video/mp4"

/-- C8 counterexample: when the Drive listing fails, the entire
observable outcome of `scan_sources` — its return value and the stores
it persists — is identical to a scan in which Drive simply returned no
items: the collected error string is only logged, never surfaced to the
caller, refuting the claim that the failing adapter's error is
surfaced. -/
theorem scan_error_not_surfaced_counterexample :
    scanSources true {} (.error "drive: boom") (.ok [c8Photos]) {} =
      scanSources true {} (.ok []) (.ok [c8Photos]) {} :=
  rfl

/-- C8 (amended): if the Drive listing fails during `scan()`, the
exception is not propagated out of `scan()`: the call still returns
`.ok`, the Photos results are merged into the state store and
persisted, and the Drive store is left unchanged; the failing adapter's
error is caught and logged but NOT surfaced to the caller — the result
is indistinguishable from the failing source having listed no items. -/
theorem scan_partial_failure_merged (cfg : AppConfig) (e : String)
    (pfs : List FileState) (st : StoreState)
    (hv : cfg.download_videos = true) (hp : cfg.download_photos = true) :
    scanSources true cfg (.error e) (.ok pfs) st =
      .ok ({ st with photos_state := pfs.foldl mergeScannedFile st.photos_state },
        get_download_stats st.drive_state
          (pfs.foldl mergeScannedFile st.photos_state) st.transcription_state)
    ∧ scanSources true cfg (.error e) (.ok pfs) st =
        scanSources true cfg (.ok []) (.ok pfs) st := by
  unfold scanSources
  simp [hv, hp]

/-- Witness for `scan_partial_failure_merged` with the default config,
a failing Drive listing and one Photos item. -/
theorem scan_partial_failure_merged_witness :
    ({} : AppConfig).download_videos = true
    ∧ ({} : AppConfig).download_photos = true
    ∧ (scanSources true {} (.error "boom") (.ok [c8Photos]) {} =
        .ok ({ ({} : StoreState) with
               photos_state := [c8Photos].foldl mergeScannedFile
                 ({} : StoreState).photos_state },
          get_download_stats ({} : StoreState).drive_state
            ([c8Photos].foldl mergeScannedFile ({} : StoreState).photos_state)
            ({} : StoreState).transcription_state)
       ∧ scanSources true {} (.error "boom") (.ok [c8Photos]) {} =
           scanSources true {} (.ok []) (.ok [c8Photos]) {}) :=
  ⟨rfl, rfl, scan_partial_failure_merged {} "boom" [c8Photos] {} rfl rfl⟩

/-- Configuration with a non-default exclude-pattern list, for the C9
round trip. -/
def c9Config : AppConfig := { download_path := "C:/dl", exclude_patterns := ["*.log"] }

/-- C9: saving this configuration and loading the saved document does
NOT restore `exclude_patterns`: the load filter `hasattr(AppConfig, k)`
is `False` for `exclude_patterns` (a dataclass field declared with
`default_factory` has its class attribute deleted), so the saved value
`["*.log"]` is discarded and the default `["*.tmp", "*.part"]` comes
back; every other saved field is restored, so the loaded config differs
from the saved one exactly in `exclude_patterns`. -/
theorem config_roundtrip_drops_exclude_patterns :
    loadConfig (some (saveConfigDoc c9Config)) =
      { c9Config with exclude_patterns := ["*.tmp", "*.part"] }
    ∧ loadConfig (some (saveConfigDoc c9Config)) ≠ c9Config := by
  constructor
  · rfl
  · decide

/-- C10: in every configuration with `download_photos` true but
`download_videos` false, the Photos source is never scanned — the
result of `scan_sources` does not depend on the Photos listing at all —
and the Photos store is unchanged, so the Photos source contributes no
records. -/
theorem photos_scan_requires_both_toggles (cfg : AppConfig)
    (dl pl pl' : Except String (List FileState)) (st : StoreState)
    (hp : cfg.download_photos = true) (hv : cfg.download_videos = false) :
    scanSources true cfg dl pl st = scanSources true cfg dl pl' st
    ∧ (scanSources true cfg dl pl st).map (fun r => r.1.photos_state) =
        .ok st.photos_state := by
  unfold scanSources
  simp [hv, hp, Except.map]

/-- Witness for `photos_scan_requires_both_toggles`: videos toggled
off, photos on, with two different Photos listings. -/
theorem photos_scan_requires_both_toggles_witness :
    ({ download_videos := false } : AppConfig).download_photos = true
    ∧ ({ download_videos := false } : AppConfig).download_videos = false
    ∧ (scanSources true { download_videos := false } (.ok []) (.error "x") {} =
        scanSources true { download_videos := false } (.ok []) (.ok [c8Photos]) {}
       ∧ (scanSources true { download_videos := false } (.ok [])
            (.error "x") {}).map (fun r => r.1.photos_state) =
          .ok ({} : StoreState).photos_state) :=
  ⟨rfl, rfl, photos_scan_requires_both_toggles { download_videos := false }
    (.ok []) (.error "x") (.ok [c8Photos]) {} rfl rfl⟩

end GMB
